import Mathlib

/-!
Shallow embedding of the two service-worker scripts of the repository
(`src/static/service-worker.js`, here suffixed `V1`, and
`src/unnamed/part_000`, here suffixed `V2`) together with models of the
browser primitives they call (cache storage lookup, `Cache.addAll`,
notification display).  Requests and responses are modelled as strings;
the cache bucket is an association list from request key to stored
response; JavaScript values appearing in push payloads are modelled by
the inductive type `JVal` with JavaScript truthiness.
-/

namespace WhosOut

/-- A request key (URL), as used by the cache bucket. -/
abbrev Url := String

/-- A response payload stored in the cache bucket or produced by the network. -/
abbrev Response := String

/-- The cache bucket `whosout-v1`: an association list from request key to
stored response.  A later `cachePut` for the same key shadows an earlier one. -/
abbrev Cache := List (Url × Response)

/-- Model of `caches.match(request)`: exact key lookup in the bucket,
resolving with the stored response on a hit and with nothing on a miss. -/
def cacheMatch (c : Cache) (req : Url) : Option Response :=
  match c with
  | [] => none
  | (k, v) :: rest => if k = req then some v else cacheMatch rest req

/-- Model of storing one entry in the cache bucket. -/
def cachePut (c : Cache) (k : Url) (v : Response) : Cache :=
  (k, v) :: c

/-- Store a list of fetched entries in the cache bucket, in order. -/
def putAll (c : Cache) : List (Url × Response) → Cache
  | [] => c
  | pr :: rest => putAll (cachePut c pr.1 pr.2) rest

/-- Fetch every path of a list from the network; the whole operation fails
as soon as any single fetch fails (the failure mode of `Cache.addAll`). -/
def fetchAll (net : Url → Except Unit Response) : List Url → Except Unit (List Response)
  | [] => .ok []
  | p :: ps =>
    match net p with
    | .error e => .error e
    | .ok r =>
      match fetchAll net ps with
      | .error e => .error e
      | .ok rs => .ok (r :: rs)

/-- Model of `cache.addAll(paths)`: fetch every path and store all responses
as a unit; if any fetch fails the whole operation rejects and the bucket is
left unchanged (the batch write of the Cache API is atomic). -/
def addAll (net : Url → Except Unit Response) (c : Cache) (paths : List Url) :
    Except Unit Cache :=
  (fetchAll net paths).map (fun rs => putAll c (paths.zip rs))

/-- The pending asset list of `src/static/service-worker.js` (lines 5-11). -/
def coreAssetsV1 : List Url :=
  ["/", "/index.html", "/manifest.json", "/icon-192.png", "/icon-512.png"]

/-- The pending asset list of `src/unnamed/part_000` (line 5). -/
def coreAssetsV2 : List Url :=
  ["/", "/index.html", "/manifest.json"]

/-- The install reaction of `src/static/service-worker.js` (lines 2-15):
open the bucket and `addAll` the asset list; the result passed to
`event.waitUntil` decides whether the install step resolves or fails. -/
def installHandlerV1 (net : Url → Except Unit Response) (c : Cache) :
    Except Unit Cache :=
  addAll net c coreAssetsV1

/-- The install reaction of `src/unnamed/part_000` (lines 2-8). -/
def installHandlerV2 (net : Url → Except Unit Response) (c : Cache) :
    Except Unit Cache :=
  addAll net c coreAssetsV2

/-- The fetch reaction of `src/static/service-worker.js` (lines 21-25):
`caches.match(event.request).then(r => r || fetch(event.request))`.
Returns the response outcome, the cache bucket after the reaction, and the
number of network calls performed. -/
def fetchHandlerV1 (net : Url → Except Unit Response) (c : Cache) (req : Url) :
    Except Unit Response × Cache × Nat :=
  match cacheMatch c req with
  | some r => (.ok r, c, 0)
  | none => (net req, c, 1)

/-- The fetch reaction of `src/unnamed/part_000` (lines 10-14), textually
identical to the one of `src/static/service-worker.js`. -/
def fetchHandlerV2 (net : Url → Except Unit Response) (c : Cache) (req : Url) :
    Except Unit Response × Cache × Nat :=
  match cacheMatch c req with
  | some r => (.ok r, c, 0)
  | none => (net req, c, 1)

/-- Claim C1: for every intercepted request, the fetch reaction first
consults the cache bucket by exact key match; on a hit it returns the
cached response with no network call, and on a miss it performs exactly
one network call and returns its result unmodified, in both source
variants. -/
theorem fetch_cache_first_both_variants (net : Url → Except Unit Response)
    (c : Cache) (req : Url) :
    ((∀ r, cacheMatch c req = some r →
        fetchHandlerV1 net c req = (.ok r, c, 0) ∧
        fetchHandlerV2 net c req = (.ok r, c, 0)) ∧
     (cacheMatch c req = none →
        fetchHandlerV1 net c req = (net req, c, 1) ∧
        fetchHandlerV2 net c req = (net req, c, 1))) := by
  constructor
  · intro r h
    constructor <;> simp [fetchHandlerV1, fetchHandlerV2, h]
  · intro h
    constructor <;> simp [fetchHandlerV1, fetchHandlerV2, h]

/-- Witness for C1: a concrete cache hit and a concrete cache miss. -/
theorem fetch_cache_first_both_variants_witness :
    fetchHandlerV1 (fun _ => .ok "fromNet") [("/", "home")] "/" =
      (.ok "home", [("/", "home")], 0) ∧
    fetchHandlerV2 (fun _ => .ok "fromNet") [("/", "home")] "/other" =
      (.ok "fromNet", [("/", "home")], 1) := by
  constructor
  · exact ((fetch_cache_first_both_variants (fun _ => .ok "fromNet")
      [("/", "home")] "/").1 "home" (by decide)).1
  · exact ((fetch_cache_first_both_variants (fun _ => .ok "fromNet")
      [("/", "home")] "/other").2 (by decide)).2

/-- If any path of the list fails to fetch, the whole `fetchAll` fails. -/
lemma fetchAll_error_of_mem (net : Url → Except Unit Response) :
    ∀ (paths : List Url) (p : Url), p ∈ paths → net p = .error () →
      fetchAll net paths = .error () := by
  intro paths
  induction paths with
  | nil => intro p hp; cases hp
  | cons q ps ih =>
    intro p hp hnet
    rcases List.mem_cons.mp hp with h | h
    · subst h
      simp [fetchAll, hnet]
    · cases hq : net q with
      | error e => cases e; simp [fetchAll, hq]
      | ok r => simp [fetchAll, hq, ih p h hnet]

/-- A fresh `cachePut` is found by `cacheMatch`. -/
lemma cacheMatch_cachePut_self (c : Cache) (k : Url) (v : Response) :
    cacheMatch (cachePut c k v) k = some v := by
  simp [cacheMatch, cachePut]

/-- `putAll` does not disturb lookups of keys it does not store. -/
lemma cacheMatch_putAll_of_not_key :
    ∀ (pairs : List (Url × Response)) (c : Cache) (k : Url),
      (∀ pr ∈ pairs, pr.1 ≠ k) →
      cacheMatch (putAll c pairs) k = cacheMatch c k := by
  intro pairs
  induction pairs with
  | nil => intro c k _; rfl
  | cons pr rest ih =>
    intro c k h
    have hk : pr.1 ≠ k := h pr (List.mem_cons_self pr rest)
    have hrest : ∀ q ∈ rest, q.1 ≠ k := fun q hq => h q (List.mem_cons_of_mem pr hq)
    calc cacheMatch (putAll (cachePut c pr.1 pr.2) rest) k
        = cacheMatch (cachePut c pr.1 pr.2) k := ih (cachePut c pr.1 pr.2) k hrest
      _ = cacheMatch c k := by simp [cacheMatch, cachePut, hk]

/-- When `fetchAll` succeeds, every path of the list is retrievable from the
bucket obtained by storing the zipped pairs, with exactly the response the
network returned for it. -/
lemma fetchAll_ok_lookup (net : Url → Except Unit Response) :
    ∀ (paths : List Url) (rs : List Response) (c : Cache),
      fetchAll net paths = .ok rs →
      ∀ p ∈ paths, ∃ r, net p = .ok r ∧
        cacheMatch (putAll c (paths.zip rs)) p = some r := by
  intro paths
  induction paths with
  | nil => intro rs c _ p hp; cases hp
  | cons q ps ih =>
    intro rs c h p hp
    cases hq : net q with
    | error e => simp [fetchAll, hq] at h
    | ok r0 =>
      cases hps : fetchAll net ps with
      | error e => simp [fetchAll, hq, hps] at h
      | ok rs' =>
        simp only [fetchAll, hq, hps, Except.ok.injEq] at h
        subst h
        by_cases hpps : p ∈ ps
        · have := ih rs' (cachePut c q r0) hps p hpps
          simpa [putAll, List.zip_cons_cons] using this
        · have hpq : p = q := by
            rcases List.mem_cons.mp hp with h' | h'
            · exact h'
            · exact absurd h' hpps
          refine ⟨r0, by rw [hpq]; exact hq, ?_⟩
          have hkeys : ∀ pr ∈ ps.zip rs', pr.1 ≠ p := by
            intro pr hpr heq
            rcases pr with ⟨a, b⟩
            have ha : a ∈ ps := (List.of_mem_zip hpr).1
            exact hpps (heq ▸ ha)
          rw [show (q :: ps).zip (r0 :: rs') = (q, r0) :: ps.zip rs' from rfl]
          show cacheMatch (putAll (cachePut c q r0) (ps.zip rs')) p = some r0
          rw [cacheMatch_putAll_of_not_key (ps.zip rs') (cachePut c q r0) p hkeys,
            hpq, cacheMatch_cachePut_self]

/-- Success of `addAll` gives every listed path in the resulting bucket. -/
lemma addAll_ok_lookup (net : Url → Except Unit Response) (paths : List Url)
    (c c' : Cache) (h : addAll net c paths = .ok c') :
    ∀ p ∈ paths, ∃ r, net p = .ok r ∧ cacheMatch c' p = some r := by
  cases hf : fetchAll net paths with
  | error e => simp [addAll, hf, Except.map] at h
  | ok rs =>
    simp only [addAll, hf, Except.map, Except.ok.injEq] at h
    subst h
    exact fetchAll_ok_lookup net paths rs c hf

/-- Failure of any single listed fetch makes the whole `addAll` fail. -/
lemma addAll_error_of_mem (net : Url → Except Unit Response) (paths : List Url)
    (c : Cache) (p : Url) (hp : p ∈ paths) (h : net p = .error ()) :
    addAll net c paths = .error () := by
  rw [addAll, fetchAll_error_of_mem net paths p hp h]
  rfl

/-- Claim C2: in both variants, the install reaction stores every path of
its pending asset list into the cache bucket as a unit: if it resolves,
every asset is stored with the response the network returned for it, and
if the fetch of any single asset fails, the whole install step fails. -/
theorem install_stores_assets_atomically (net : Url → Except Unit Response)
    (c : Cache) :
    ((∀ c', installHandlerV1 net c = .ok c' →
        ∀ p ∈ coreAssetsV1, ∃ r, net p = .ok r ∧ cacheMatch c' p = some r) ∧
     (∀ p ∈ coreAssetsV1, net p = .error () →
        installHandlerV1 net c = .error ())) ∧
    ((∀ c', installHandlerV2 net c = .ok c' →
        ∀ p ∈ coreAssetsV2, ∃ r, net p = .ok r ∧ cacheMatch c' p = some r) ∧
     (∀ p ∈ coreAssetsV2, net p = .error () →
        installHandlerV2 net c = .error ())) := by
  refine ⟨⟨?_, ?_⟩, ?_, ?_⟩
  · intro c' h p hp
    exact addAll_ok_lookup net coreAssetsV1 c c' h p hp
  · intro p hp hnet
    exact addAll_error_of_mem net coreAssetsV1 c p hp hnet
  · intro c' h p hp
    exact addAll_ok_lookup net coreAssetsV2 c c' h p hp
  · intro p hp hnet
    exact addAll_error_of_mem net coreAssetsV2 c p hp hnet

/-- Witness for C2: a network that answers every path with its own name
populates the variant-1 bucket with a retrievable root document, and a
network that fails on the root makes the variant-2 install step fail. -/
theorem install_stores_assets_atomically_witness :
    (∃ r, (fun (p : Url) => (Except.ok p : Except Unit Response)) "/" = .ok r ∧
      cacheMatch (putAll [] (coreAssetsV1.zip coreAssetsV1)) "/" = some r) ∧
    installHandlerV2 (fun _ => .error ()) [] = .error () := by
  constructor
  · exact (install_stores_assets_atomically
      (fun (p : Url) => (Except.ok p : Except Unit Response)) []).1.1
      (putAll [] (coreAssetsV1.zip coreAssetsV1)) rfl "/" (by decide)
  · exact (install_stores_assets_atomically
      (fun _ => .error ()) []).2.2 "/" (by decide) rfl

/-- Claim C6: the fetch reaction never writes to the cache bucket; after
the reaction the bucket equals what it was before, in both variants. -/
theorem fetch_never_writes_cache (net : Url → Except Unit Response)
    (c : Cache) (req : Url) :
    (fetchHandlerV1 net c req).2.1 = c ∧ (fetchHandlerV2 net c req).2.1 = c := by
  cases h : cacheMatch c req <;>
    simp [fetchHandlerV1, fetchHandlerV2, h]

/-- A JavaScript value as it can appear in a parsed push payload field. -/
inductive JVal where
  | undef
  | null
  | bool (b : Bool)
  | num (n : Int)
  | str (s : String)
deriving DecidableEq, Repr

/-- JavaScript truthiness of a `JVal`. -/
def truthy : JVal → Bool
  | .undef => false
  | .null => false
  | .bool b => b
  | .num n => n != 0
  | .str s => s != ""

/-- The JavaScript `a || b` operator on modelled values. -/
def jsOr (a b : JVal) : JVal :=
  if truthy a then a else b

/-- JavaScript string coercion of a `JVal`, as applied by the notification
display to its title and body. -/
def jsToString : JVal → String
  | .undef => "undefined"
  | .null => "null"
  | .bool true => "true"
  | .bool false => "false"
  | .num n => toString n
  | .str s => s

/-- The object obtained from `event.data.json()`: its `title` and `body`
fields (`JVal.undef` when a field is absent). -/
structure JData where
  title : JVal
  body : JVal
deriving DecidableEq, Repr

/-- The raw payload `event.data` of a push event: `json` is the result of
calling `.json()` on it (an exception when the payload is not valid
structured data) and `text` is the result of calling `.text()`. -/
structure PushData where
  json : Except Unit JData
  text : String
deriving Repr

/-- The default notification title appearing in the source. -/
def whosOut : String := "Who’s Out"

/-- The options object passed to `showNotification`. -/
structure NotifOptions where
  body : JVal
  icon : String
  badge : String
  tag : Option String
  renotify : Option Bool
deriving DecidableEq, Repr

/-- A displayed notification: `showNotification(title, options)` coerces the
title and body to strings for display. -/
structure Notification where
  title : String
  body : String
  icon : String
  badge : String
  tag : Option String
  renotify : Option Bool
deriving DecidableEq, Repr

/-- Model of `self.registration.showNotification(title, options)`. -/
def showNotification (title : JVal) (o : NotifOptions) : Notification :=
  { title := jsToString title
    body := jsToString o.body
    icon := o.icon
    badge := o.badge
    tag := o.tag
    renotify := o.renotify }

/-- The options object built by `src/static/service-worker.js` (lines
38-45): body defaulted by falsiness, fixed icon and badge, a tag equal to
`String(Date.now())` and `renotify: false`.  `now` models `Date.now()`. -/
def optionsV1 (now : Nat) (data : JData) : NotifOptions :=
  { body := jsOr data.body (.str "")
    icon := "/icon-192.png"
    badge := "/icon-192.png"
    tag := some (toString now)
    renotify := some false }

/-- The options object built by `src/unnamed/part_000` (lines 20-24): body
defaulted by falsiness, fixed icon and badge, no tag and no renotify flag. -/
def optionsV2 (data : JData) : NotifOptions :=
  { body := jsOr data.body (.str "")
    icon := "/icon-192.png"
    badge := "/icon-192.png"
    tag := none
    renotify := none }

/-- The push reaction of `src/static/service-worker.js` (lines 28-48):
parse the payload inside a try block, fall back on a parse exception to a
plain-text interpretation, then display a notification whose title and
body are defaulted by falsiness.  The reaction never throws. -/
def pushHandlerV1 (now : Nat) (edata : Option PushData) : Notification :=
  let data : JData :=
    match edata with
    | none => { title := .undef, body := .undef }
    | some d =>
      match d.json with
      | .ok v => v
      | .error _ => { title := .str whosOut, body := .str d.text }
  showNotification (jsOr data.title (.str whosOut)) (optionsV1 now data)

/-- Lines 19-25 of `src/unnamed/part_000`: derive title and options from a
successfully parsed payload and display the notification. -/
def pushDisplayV2 (data : JData) : Notification :=
  showNotification (jsOr data.title (.str whosOut)) (optionsV2 data)

/-- The push reaction of `src/unnamed/part_000` (lines 17-26): parse the
payload with no try block, so a parse exception propagates out of the
handler and no notification is displayed. -/
def pushHandlerV2 (edata : Option PushData) : Except Unit Notification :=
  match edata with
  | none => Except.ok (pushDisplayV2 { title := .undef, body := .undef })
  | some d => (d.json).map pushDisplayV2

/-- An effect performed by the activate or notification-click reactions. -/
inductive Action where
  | clientsClaim
  | closeNotif (id : Nat)
  | openWindow (url : String)
deriving DecidableEq, Repr

/-- The activate reaction of `src/static/service-worker.js` (lines 17-19):
`event.waitUntil(self.clients.claim())`. -/
def activateHandlerV1 : List Action := [.clientsClaim]

/-- The event types for which `src/static/service-worker.js` registers a
listener (lines 2, 17, 21, 28, 50). -/
def registeredEventsV1 : List String :=
  ["install", "activate", "fetch", "push", "notificationclick"]

/-- The event types for which `src/unnamed/part_000` registers a listener
(lines 2, 10, 17, 28): there is no activate listener. -/
def registeredEventsV2 : List String :=
  ["install", "fetch", "push", "notificationclick"]

/-- The notification-click reaction of `src/static/service-worker.js`
(lines 50-53): close the clicked notification, then open a window on the
root path. -/
def clickHandlerV1 (id : Nat) : List Action :=
  [.closeNotif id, .openWindow "/"]

/-- The notification-click reaction of `src/unnamed/part_000` (lines
28-31), textually identical to the one of `src/static/service-worker.js`. -/
def clickHandlerV2 (id : Nat) : List Action :=
  [.closeNotif id, .openWindow "/"]

/-- The URLs for which a reaction opens a window, in order. -/
def openWindowUrls (acts : List Action) : List String :=
  acts.filterMap fun a =>
    match a with
    | .openWindow u => some u
    | _ => none

/-- The default title string is truthy. -/
lemma whosOut_ne_empty : whosOut ≠ "" := by decide

/-- `a || b` keeps a non-empty string on the left. -/
lemma jsOr_str_truthy (s t : String) (h : s ≠ "") :
    jsOr (.str s) (.str t) = .str s := by
  simp [jsOr, truthy, bne_iff_ne, h]

/-- String coercion is the identity on string values. -/
lemma jsToString_str (s : String) : jsToString (.str s) = s := rfl

/-- `data.body || ""` displays a string body unchanged (also when empty). -/
lemma jsToString_jsOr_str_empty (s : String) :
    jsToString (jsOr (.str s) (.str "")) = s := by
  by_cases h : s = ""
  · simp [jsOr, truthy, jsToString, h]
  · simp [jsOr, truthy, jsToString, bne_iff_ne, h]

/-- Claim C3 fails on the code: in `src/unnamed/part_000` a plain-text
payload makes `event.data.json()` throw outside any try block, so the push
reaction fails and no notification is displayed. -/
theorem text_payload_fatal_in_part000 :
    pushHandlerV2 (some { json := .error (), text := "Bob is out today" }) =
      .error () := rfl

/-- Claim C3 (amended): only the `src/static/service-worker.js` variant
recovers from a push-payload-parse failure, displaying a notification with
the default title and the plain-text body; in `src/unnamed/part_000` the
parse failure propagates out of the handler and no notification is shown. -/
theorem push_parse_failure_recovered_v1_only (now : Nat) (d : PushData)
    (h : d.json = .error ()) :
    pushHandlerV1 now (some d) =
      { title := whosOut, body := d.text, icon := "/icon-192.png",
        badge := "/icon-192.png", tag := some (toString now),
        renotify := some false } ∧
    pushHandlerV2 (some d) = .error () := by
  constructor
  · simp only [pushHandlerV1, h]
    simp [showNotification, optionsV1,
      jsOr_str_truthy whosOut whosOut whosOut_ne_empty, jsToString_str,
      jsToString_jsOr_str_empty]
  · simp [pushHandlerV2, h, Except.map]

/-- Witness for C3 (amended): the plain-text payload of the spec example. -/
theorem push_parse_failure_recovered_v1_only_witness :
    pushHandlerV1 7 (some { json := .error (), text := "Bob is out today" }) =
      { title := whosOut, body := "Bob is out today", icon := "/icon-192.png",
        badge := "/icon-192.png", tag := some (toString 7),
        renotify := some false } ∧
    pushHandlerV2 (some { json := .error (), text := "Bob is out today" }) =
      .error () :=
  push_parse_failure_recovered_v1_only 7
    { json := .error (), text := "Bob is out today" } rfl

/-- Claim C4 fails on the code: a payload whose title field is present but
equal to the empty string is displayed with the default title, not with the
payload title. -/
theorem empty_title_not_displayed_verbatim :
    (pushHandlerV1 0 (some ⟨.ok ⟨.str "", .str "Alice is out"⟩, ""⟩)).title = whosOut ∧
    whosOut ≠ "" := ⟨rfl, by decide⟩

/-- Claim C4 (amended): for every push payload parsing as JSON whose title
and body are present as strings with the title non-empty, the displayed
notification carries exactly that title and body, in both variants; in
particular the payload with title "Meeting" and body "Alice is out". -/
theorem json_payload_fields_displayed (now : Nat) (t b : String)
    (d : PushData) (ht : t ≠ "")
    (hd : d.json = .ok { title := .str t, body := .str b }) :
    pushHandlerV1 now (some d) =
      { title := t, body := b, icon := "/icon-192.png",
        badge := "/icon-192.png", tag := some (toString now),
        renotify := some false } ∧
    pushHandlerV2 (some d) =
      .ok { title := t, body := b, icon := "/icon-192.png",
            badge := "/icon-192.png", tag := none, renotify := none } := by
  constructor
  · simp only [pushHandlerV1, hd]
    simp [showNotification, optionsV1, jsOr_str_truthy t whosOut ht,
      jsToString_str, jsToString_jsOr_str_empty]
  · simp only [pushHandlerV2, hd, Except.map]
    simp [pushDisplayV2, showNotification, optionsV2,
      jsOr_str_truthy t whosOut ht, jsToString_str, jsToString_jsOr_str_empty]

/-- Witness for C4 (amended): the spec example payload. -/
theorem json_payload_fields_displayed_witness :
    pushHandlerV1 3 (some ⟨.ok ⟨.str "Meeting", .str "Alice is out"⟩, ""⟩) =
      { title := "Meeting", body := "Alice is out", icon := "/icon-192.png",
        badge := "/icon-192.png", tag := some (toString 3),
        renotify := some false } ∧
    pushHandlerV2 (some ⟨.ok ⟨.str "Meeting", .str "Alice is out"⟩, ""⟩) =
      .ok { title := "Meeting", body := "Alice is out", icon := "/icon-192.png",
            badge := "/icon-192.png", tag := none, renotify := none } :=
  json_payload_fields_displayed 3 "Meeting" "Alice is out"
    ⟨.ok ⟨.str "Meeting", .str "Alice is out"⟩, ""⟩ (by decide) rfl

/-- Claim C5: a push event with no payload at all displays a notification
with the default title and an empty body, in both variants. -/
theorem push_without_payload_shows_defaults (now : Nat) :
    pushHandlerV1 now none =
      { title := whosOut, body := "", icon := "/icon-192.png",
        badge := "/icon-192.png", tag := some (toString now),
        renotify := some false } ∧
    pushHandlerV2 none =
      .ok { title := whosOut, body := "", icon := "/icon-192.png",
            badge := "/icon-192.png", tag := none, renotify := none } := by
  constructor <;> rfl

/-- Claim C7 fails on the code: `src/unnamed/part_000` registers no
listener for the activate event at all. -/
theorem activate_missing_in_part000 : "activate" ∉ registeredEventsV2 := by
  decide

/-- Claim C7 (amended): only `src/static/service-worker.js` reacts to the
activate signal, by claiming the open clients; `src/unnamed/part_000`
registers no activate listener. -/
theorem activate_claims_clients_v1_only :
    activateHandlerV1 = [Action.clientsClaim] ∧
    "activate" ∈ registeredEventsV1 ∧
    "activate" ∉ registeredEventsV2 :=
  ⟨rfl, by decide, by decide⟩

/-- Claim C8: for every notification-click event, both variants first close
the clicked notification and then open exactly one window, on the root
path "/". -/
theorem click_closes_then_opens_root (id : Nat) :
    (clickHandlerV1 id).head? = some (Action.closeNotif id) ∧
    openWindowUrls (clickHandlerV1 id) = ["/"] ∧
    (clickHandlerV2 id).head? = some (Action.closeNotif id) ∧
    openWindowUrls (clickHandlerV2 id) = ["/"] :=
  ⟨rfl, rfl, rfl, rfl⟩

/-- Claim C9: exactly one of the two variants sets a uniqueness tag (the
string form of the current timestamp) and a renotify flag of false on its
notification options: `src/static/service-worker.js` does, and
`src/unnamed/part_000` has neither. -/
theorem dedup_tag_in_exactly_one_variant (now : Nat) (data : JData) :
    (optionsV1 now data).tag = some (toString now) ∧
    (optionsV1 now data).renotify = some false ∧
    (optionsV2 data).tag = none ∧
    (optionsV2 data).renotify = none :=
  ⟨rfl, rfl, rfl, rfl⟩

/-- Claim C10: defaulting is by falsiness, not by absence: any payload
whose title field is the empty string (whatever its body field holds) is
displayed with the default title, and any payload whose body field is
falsy (whatever its title field holds) is displayed with an empty body,
in both variants. -/
theorem falsy_fields_default (now : Nat) (d : PushData) (t b : JVal)
    (hd : d.json = .ok { title := t, body := b }) :
    (t = .str "" →
      (pushHandlerV1 now (some d)).title = whosOut ∧
      (pushHandlerV2 (some d)).map Notification.title = .ok whosOut) ∧
    (truthy b = false →
      (pushHandlerV1 now (some d)).body = "" ∧
      (pushHandlerV2 (some d)).map Notification.body = .ok "") := by
  constructor
  · rintro rfl
    have h0 : jsOr (.str "") (.str whosOut) = .str whosOut := by
      simp [jsOr, truthy]
    constructor
    · simp [pushHandlerV1, hd, showNotification, optionsV1, h0, jsToString_str]
    · simp [pushHandlerV2, hd, Except.map, pushDisplayV2, showNotification,
        optionsV2, h0, jsToString_str]
  · intro hb
    have hb2 : jsOr b (.str "") = .str "" := by
      simp [jsOr, hb]
    constructor
    · simp [pushHandlerV1, hd, showNotification, optionsV1, hb2, jsToString_str]
    · simp [pushHandlerV2, hd, Except.map, pushDisplayV2, showNotification,
        optionsV2, hb2, jsToString_str]

/-- Witness for C10: an empty-string title with a truthy body defaults only
the title, and a null body with a non-empty title displays an empty body. -/
theorem falsy_fields_default_witness :
    ((pushHandlerV1 0 (some ⟨.ok ⟨.str "", .str "hello"⟩, ""⟩)).title = whosOut ∧
     (pushHandlerV2 (some ⟨.ok ⟨.str "", .str "hello"⟩, ""⟩)).map Notification.title =
       .ok whosOut) ∧
    ((pushHandlerV1 0 (some ⟨.ok ⟨.str "Meeting", .null⟩, ""⟩)).body = "" ∧
     (pushHandlerV2 (some ⟨.ok ⟨.str "Meeting", .null⟩, ""⟩)).map Notification.body =
       .ok "") :=
  ⟨(falsy_fields_default 0 ⟨.ok ⟨.str "", .str "hello"⟩, ""⟩
      (.str "") (.str "hello") rfl).1 rfl,
   (falsy_fields_default 0 ⟨.ok ⟨.str "Meeting", .null⟩, ""⟩
      (.str "Meeting") .null rfl).2 rfl⟩

end WhosOut
